import Mathlib

/-!
# Verification of the nsm66d session daemon core

A shallow embedding of the nsm66d daemon (`nsm66d.cpp`), its header
(`nsm66d.hpp`) and the auxiliary `jackpatch66.cpp` patch engine.
Pure state-passing models of the OSC handlers and helper functions are
defined directly from the C++ source; theorems settle the frozen claims
about the daemon's behaviour.

Conventions of the embedding:

* The daemon's module-level globals (`s_client_list`, `s_session_path`,
  `s_pending_operation`, ...) become fields of `DaemonState`.
* Every outbound effect (`s_osc_server->send`, `gui_send`, `gui_msg`,
  `kill(pid, sig)`) becomes an element of an output list.
* OSC addresses (liblo `lo_address`) are host/port pairs; their
  serialized URL is `osc.udp://host:port/`.
* Logging (`util::info_printf` and friends) is elided: the spec places
  logging out of scope and no claim mentions it.
* Machine integers hold small values everywhere they are used here
  (error codes, PIDs, API versions), so they are modelled as `Int`.
-/

namespace nsm

/-- Modelled from the spec: the `nsm::command` enumeration lives in the
nsm66 support library (`nsm/nsmcodes.hpp`), not in this repository.  The
spec lists the pending-command domain
`none|start|open|save|quit|kill|duplicate|new|close`; `new` is spelled
`new_session` at its use sites in `nsm66d.cpp`. -/
inductive command
  | none
  | start
  | «open»
  | save
  | quit
  | kill
  | duplicate
  | new_session
  | close
deriving DecidableEq, Repr

/-- Modelled from the spec: the `nsm::error` enumeration lives in the
nsm66 support library (`nsm/nsmcodes.hpp`), not in this repository.  The
spec's error taxonomy (section 7) lists these codes, with `ok = 0` and
`general = -1`. -/
inductive error
  | ok
  | general
  | incompatible_api
  | blacklisted
  | launch_failed
  | no_such_file
  | no_session_open
  | unsaved_changes
  | not_now
  | bad_project
  | create_failed
  | session_locked
  | operation_pending
  | save_failed
deriving DecidableEq, Repr

/-- Modelled from the spec: the integer wire value of each error code
(the second integer of an `/error` reply).  The spec fixes `ok = 0` and
`general = -1`; the remaining codes descend in the order of the
taxonomy.  Only `ok = 0` and the distinctness of the values matter to
the claims. -/
def error.toInt : error → Int
  | .ok => 0
  | .general => -1
  | .incompatible_api => -2
  | .blacklisted => -3
  | .launch_failed => -4
  | .no_such_file => -5
  | .no_session_open => -6
  | .unsaved_changes => -7
  | .not_now => -8
  | .bad_project => -9
  | .create_failed => -10
  | .session_locked => -11
  | .operation_pending => -12
  | .save_failed => -13

end nsm

namespace util

/-- Modelled from the cfg66 support library (`util/strfunctions.hpp`,
outside this repository): `util::strcompare(a, b)` is string equality.
This is the only semantics consistent with its uses inside the
repository: the `list` handler treats `strcompare("session.nsm",
basename(...))` as the session-marker test, the `label` handler rejects
a type signature with `! strcompare(types, "s")`, and jackpatch's CLI
loop tests `strcompare(option, "--save")`. -/
def strcompare (a b : String) : Bool :=
  a == b

/-- Modelled from the cfg66 support library (`util/strfunctions.hpp`,
outside this repository): `util::strncompare(a, b)` with the length
defaulted ("length predetermined" in the broadcast handler's comment)
compares the first `b.length` characters, i.e. tests whether `a` starts
with `b`. -/
def strncompare (a b : String) : Bool :=
  b.data.isPrefixOf a.data

/-- Helper for `util.contains`: does `needle` occur as a contiguous
run inside `hay`? -/
def listContains (needle : List Char) : List Char → Bool
  | [] => needle.isEmpty
  | c :: rest => needle.isPrefixOf (c :: rest) || listContains needle rest

/-- Modelled from the cfg66 support library: `util::contains(s, t)`
tests whether `t` occurs as a substring of `s` (used for `".."` in
`path_is_valid` and capability lookup in `Client::is_capable_of`). -/
def contains (s t : String) : Bool :=
  listContains t.data s.data

end util

/-- A liblo OSC address, reduced to the data the daemon reads from it:
`lo_address_get_url` serializes host and port, `lo_address_get_port`
returns the port alone. -/
structure Addr where
  host : String
  port : String
deriving DecidableEq, Repr

/-- `lo_address_get_url`: the serialized URL of an address. -/
def Addr.url (a : Addr) : String :=
  "osc.udp://" ++ a.host ++ ":" ++ a.port ++ "/"

/-- `lo_address_get_port`: the port component of an address. -/
def Addr.portOf (a : Addr) : String :=
  a.port

/-- One typed OSC argument.  A float argument is carried as an opaque
representation (`f`), which is faithful for the daemon: it only ever
copies float arguments, never computes with them. -/
inductive OscArg
  | s (v : String)
  | i (v : Int)
  | f (bits : String)
  | other (typ : Char) (bits : String)
deriving DecidableEq, Repr

/-- Destination of an outbound OSC message. -/
inductive Dest
  | client (a : Addr)          -- `c->addr()`
  | source                     -- `lo_message_get_source(msg)` of the request
  | gui                        -- `s_gui_address`
deriving DecidableEq, Repr

/-- One outbound effect of a handler. -/
inductive Output
  | osc (dest : Dest) (path : String) (args : List OscArg)
  | guiMsg (fmt : String)      -- `gui_msg(...)`; varargs elided, format kept
  | signal (pid : Int) (signo : Nat)
deriving DecidableEq, Repr

/-- The per-client record (`class Client` in `nsm66d.hpp`), with the
fields the handlers read or write.  `m_addr` is absent until announce,
hence `Option Addr`.  `m_launch_error` is an `int` used as a boolean. -/
structure Client where
  name : String                -- `m_name`
  exePath : String             -- `m_exe_path`
  clientId : String            -- `m_client_id`
  nameWithId : String          -- `m_name_with_id`
  capabilities : String        -- `m_capabilities`
  addr : Option Addr           -- `m_addr`
  pid : Int                    -- `m_pid`
  active : Bool                -- `m_active`
  pendingCommand : nsm.command -- `m_pending_command`
  status : String              -- `m_status`
  label : String               -- `m_label`
  launchError : Bool           -- `m_launch_error`
  preExisting : Bool           -- `m_pre_existing`
  dirty : Bool                 -- `m_dirty`
  replyErrcode : Int           -- `m_reply_errcode`
deriving DecidableEq, Repr

/-- `Client::Client()`: the default constructor's field values. -/
def Client.default : Client where
  name := ""
  exePath := ""
  clientId := ""
  nameWithId := ""
  capabilities := ""
  addr := none
  pid := 0
  active := false
  pendingCommand := nsm.command.none
  status := ""
  label := ""
  launchError := false
  preExisting := false
  dirty := false
  replyErrcode := 0

/-- `Client::Client(name, exe, id)`. -/
def Client.mk3 (name exe id : String) : Client :=
  { Client.default with name := name, exePath := exe, clientId := id }

/-- `Client::is_dumb_client()`: empty capability string. -/
def Client.is_dumb_client (c : Client) : Bool :=
  c.capabilities == ""

/-- `Client::is_capable_of(capability)`. -/
def Client.is_capable_of (c : Client) (capability : String) : Bool :=
  util.contains c.capabilities capability

/-- `Client::reply_pending()`. -/
def Client.reply_pending (c : Client) : Bool :=
  c.pendingCommand != nsm.command.none

/-- `Client::has_error()`. -/
def Client.has_error (c : Client) : Bool :=
  c.replyErrcode != 0

/-- The daemon's module-level mutable globals, gathered into one state
value (`s_client_list`, `s_session_root`, `s_session_path`,
`s_session_name`, `s_lockfile_directory`, `s_pending_operation`,
`s_gui_is_active`, `s_gui_address`). -/
structure DaemonState where
  clients : List Client
  sessionRoot : String
  sessionPath : String
  sessionName : String
  lockfileDirectory : String
  pendingOperation : nsm.command
  guiIsActive : Bool
  guiAddr : Addr
deriving DecidableEq, Repr

/-- `address_matches(addr1, addr2)` in `nsm66d.cpp`: despite the local
variable names `url1`/`url2`, the function compares the strings returned
by `lo_address_get_port`, i.e. the ports only. -/
def address_matches (addr1 addr2 : Addr) : Bool :=
  addr1.portOf == addr2.portOf

/-- `get_client_by_address(addr)`: first client of `s_client_list`
whose address matches.  A record with no address yet (null `m_addr`)
cannot match a concrete source address. -/
def get_client_by_address (clients : List Client) (addr : Addr) :
    Option Client :=
  clients.find? fun c =>
    match c.addr with
    | some a => address_matches a addr
    | none => false

/-- `get_client_by_name(cl, name)`. -/
def get_client_by_name (cl : List Client) (name : String) : Option Client :=
  cl.find? fun c => c.name == name

/-- `is_a_client_id(s)`: matches the template `nXXXX` (an `n` followed
by four uppercase ASCII letters). -/
def is_a_client_id (s : String) : Bool :=
  s.length == 5 &&
    (s.data.headD ' ' == 'n') &&
    ((s.data.drop 1).all fun ch => 'A' ≤ ch && ch ≤ 'Z')

/-- `get_client_by_id(cl, id)`: by ID when `id` has the `nXXXX` shape,
otherwise it falls back to lookup by name. -/
def get_client_by_id (cl : List Client) (id : String) : Option Client :=
  if is_a_client_id id then
    cl.find? fun c => c.clientId == id
  else
    get_client_by_name cl id

/-- `get_client_by_name_and_id(cl, name, id)`. -/
def get_client_by_name_and_id (cl : List Client) (name id : String) :
    Option Client :=
  cl.find? fun c => c.clientId == id && c.name == name

/-- `get_client_by_pid(pid)`. -/
def get_client_by_pid (cl : List Client) (pid : Int) : Option Client :=
  cl.find? fun c => c.pid == pid

/-- `error_send` / `error_send_ex`: an `/error <path> <code> <msg>`
message back to the request's source.  (The `_ex` variant re-creates
the sender address from its URL; the destination is the same.) -/
def error_send (path : String) (e : nsm.error) (errmsg : String) : Output :=
  Output.osc Dest.source "/error" [OscArg.s path, OscArg.i e.toInt, OscArg.s errmsg]

/-- `reply_send` / `reply_send_ex`: a `/reply <path> <msg>` message back
to the request's source. -/
def reply_send (path : String) (replymsg : String) : Output :=
  Output.osc Dest.source "/reply" [OscArg.s path, OscArg.s replymsg]

/-- `gui_send(msg, s1, s2)`: a two-string OSC message to the attached
GUI, sent only when `s_gui_is_active`. -/
def gui_send (st : DaemonState) (msgpath s1 s2 : String) : List Output :=
  if st.guiIsActive then [Output.osc Dest.gui msgpath [OscArg.s s1, OscArg.s s2]]
  else []

/-- `gui_msg(format, ...)`: a `/nsm/gui/server/message` to the attached
GUI, sent only when `s_gui_is_active`.  The varargs formatting is
elided; the format string is kept. -/
def gui_msg (st : DaemonState) (fmt : String) : List Output :=
  if st.guiIsActive then [Output.guiMsg fmt] else []

/-- The `switch` of `OSC_HANDLER(broadcast)` over `types[i]`: arguments
of types `s`, `i`, `f` are copied into `new_args`; any other type is
silently dropped. -/
def keep_sif : OscArg → Option OscArg
  | .s v => some (.s v)
  | .i v => some (.i v)
  | .f b => some (.f b)
  | .other _ _ => none

/-- `OSC_HANDLER(broadcast)` in `nsm66d.cpp`.  `handlerPath` is the
handler's `path` argument (`/nsm/server/broadcast`), `senderUrl` the
serialized URL of the message source, `to_path` the first (string)
argument, `args` the remaining arguments.  The handler mutates no
state; its value is the list of sends.  The `argc < 1` guard is
satisfied by construction (`to_path` exists).

Note the structure of the source: the handler returns without relaying
when `! util::strncompare(to_path, "/nsm/")`; it sends to a client when
`util::strcompare(sender_url, url)`; it relays to the GUI when
`util::strcompare(u1, sender_url)`. -/
def osc_broadcast (st : DaemonState) (handlerPath senderUrl to_path : String)
    (args : List OscArg) : List Output :=
  if ! util.strncompare to_path "/nsm/" then []
  else
    let new_args := args.filterMap keep_sif
    let clientSends := st.clients.filterMap fun c =>
      match c.addr with
      | none => none                      -- `is_nullptr(c->addr())` → continue
      | some a =>
        if util.strcompare senderUrl a.url then
          some (Output.osc (Dest.client a) to_path new_args)
        else none
    let guiSends :=
      if st.guiIsActive then
        if util.strcompare st.guiAddr.url senderUrl then
          [Output.osc Dest.gui handlerPath (OscArg.s to_path :: new_args)]
        else []
      else []
    clientSends ++ guiSends

/-- A broadcast scenario: the sender is a registered client at port
1111; a second client listens at port 2222; a GUI is attached at port
3333.  No session fields matter to the broadcast handler. -/
def broadcastState : DaemonState where
  clients :=
    [{ Client.default with
       name := "sender"
       clientId := "nAAAA"
       addr := some ⟨"127.0.0.1", "1111"⟩ },
     { Client.default with
       name := "other"
       clientId := "nBBBB"
       addr := some ⟨"127.0.0.1", "2222"⟩ }]
  sessionRoot := "/data/nsm"
  sessionPath := "/data/nsm/Song"
  sessionName := "Song"
  lockfileDirectory := "/run/nsm"
  pendingOperation := nsm.command.none
  guiIsActive := true
  guiAddr := ⟨"127.0.0.1", "3333"⟩

/-- C1: the broadcast handler, evaluated at the failing input.  The
daemon's own comment says "Don't allow clients to broadcast NSM
commands", yet a broadcast of the target `/nsm/server/quit` is relayed
(and relayed precisely to the *originator*), while a broadcast of the
non-NSM target `/custom/path` is relayed to nobody.  The claim (and the
spec) state the exact opposite behaviour: the three conditions in the
handler are inverted relative to `util::strncompare`/`util::strcompare`
equality semantics. -/
theorem broadcast_relays_only_nsm_targets :
    osc_broadcast broadcastState "/nsm/server/broadcast"
        (Addr.url ⟨"127.0.0.1", "1111"⟩) "/nsm/server/quit" [] =
      [Output.osc (Dest.client ⟨"127.0.0.1", "1111"⟩) "/nsm/server/quit" []] ∧
    osc_broadcast broadcastState "/nsm/server/broadcast"
        (Addr.url ⟨"127.0.0.1", "1111"⟩) "/custom/path" [OscArg.s "hello"] =
      [] := by
  constructor <;> rfl

/-- A client record at host 127.0.0.1, port 7777, used to exercise the
address-based lookup. -/
def portOnlyClient : Client :=
  { Client.default with
    name := "seq66"
    clientId := "nABCD"
    addr := some ⟨"127.0.0.1", "7777"⟩ }

/-- C6 counterexample: two addresses that differ in host but agree on
port are treated as the same client.  Lookup from the foreign host
192.168.1.5 returns the record registered from 127.0.0.1, contradicting
the claim that lookup never crosses a host difference. -/
theorem address_lookup_crosses_hosts :
    get_client_by_address [portOnlyClient] ⟨"192.168.1.5", "7777"⟩ =
      some portOnlyClient ∧
    ("192.168.1.5" : String) ≠ "127.0.0.1" := by
  exact ⟨rfl, by decide⟩

/-- C6 (amended): `address_matches` compares the strings returned by
`lo_address_get_port` only, so two addresses are the same client
exactly when their *ports* agree — the host plays no part — and any
record returned by `get_client_by_address` has an address whose port
equals the probe's port. -/
theorem address_lookup_port_only :
    (∀ a b : Addr, address_matches a b = true ↔ a.port = b.port) ∧
    (∀ (cl : List Client) (adr : Addr) (c : Client),
      get_client_by_address cl adr = some c →
        ∃ a, c.addr = some a ∧ a.port = adr.port) := by
  constructor
  · intro a b
    simp [address_matches, Addr.portOf]
  · intro cl adr c h
    have hp := List.find?_some h
    cases hc : c.addr with
    | none => rw [hc] at hp; simp at hp
    | some a =>
      rw [hc] at hp
      refine ⟨a, rfl, ?_⟩
      simpa [address_matches, Addr.portOf] using hp

/-- Witness for the amended C6 theorem at a concrete input. -/
theorem address_lookup_port_only_witness :
    ∃ a, portOnlyClient.addr = some a ∧ a.port = "7777" :=
  address_lookup_port_only.2 [portOnlyClient] ⟨"10.0.0.9", "7777"⟩
    portOnlyClient rfl

/-- Modelled from the spec: `NSM_API_VERSION_MAJOR` comes from the
nsm66 support library (`osc/lowrapper.hpp`); the spec advertises
major = 1, minor = 2. -/
def NSM_API_VERSION_MAJOR : Int := 1

/-- Result of running an OSC handler: the new daemon state and the
outbound effects in the order they are produced. -/
structure HandlerResult where
  state : DaemonState
  out : List Output
deriving DecidableEq, Repr

/-- `get_client_project_path(session_path, c)`: the per-client project
directory `<session>/<name>.<id>`. -/
def get_client_project_path (session_path : String) (c : Client) : String :=
  session_path ++ "/" ++ c.name ++ "." ++ c.clientId

/-- The matching test of the announce handler's search loop: same
executable, not yet active, pending command `start`. -/
def announce_pred (exe : String) (ci : Client) : Bool :=
  ci.exePath == exe && !ci.active && ci.pendingCommand == nsm.command.start

/-- The announce handler's search loop (`for ... break`): the first
expected record, if any. -/
def announce_match (clients : List Client) (exe : String) : Option Client :=
  clients.find? (announce_pred exe)

/-- In-place mutation through the list iterator: replace the first
element satisfying `p` by its image under `f`. -/
def update_first (p : Client → Bool) (f : Client → Client) :
    List Client → List Client
  | [] => []
  | c :: rest =>
    if p c then f c :: rest else c :: update_first p f rest

/-- The field assignments the announce handler performs on the accepted
record `c` (through the pointer, so they land in the stored record):
pid, capabilities, source address, self-reported name, `active = true`,
`name_with_id`, and — after the replies are sent — `status = "open"`
and `pending_command = open`. -/
def announce_update (src : Addr) (clientname caps : String) (pid : Int)
    (c : Client) : Client :=
  { c with
    pid := pid
    capabilities := caps
    addr := some src
    name := clientname
    active := true
    nameWithId := clientname ++ "." ++ c.clientId
    status := "open"
    pendingCommand := nsm.command.open }

/-- `OSC_HANDLER(announce)` in `nsm66d.cpp`.  `src` is the OSC source
address of the message, `freshId` the value `nsm::generate_client_id`
would return (the generator is pseudo-random library code, so its
output is a parameter), and the remaining parameters are the six OSC
arguments.  The `argc >= 6` guard is satisfied by construction. -/
def osc_announce (st : DaemonState) (src : Addr) (freshId : String)
    (clientname caps exe : String) (major _minor pid : Int) : HandlerResult :=
  let out0 := gui_msg st "Announce from %s"
  if st.sessionPath == "" then
    { state := st
      out := out0 ++ [error_send "/nsm/server/announce"
        nsm.error.no_session_open
        "No session open for this application to join"] }
  else
    let expected := announce_match st.clients exe
    if major > NSM_API_VERSION_MAJOR then
      { state := st
        out := out0 ++ [error_send "/nsm/server/announce"
          nsm.error.incompatible_api
          "Server is using an incompatible API version"] }
    else
      let cFinal :=
        match expected with
        | some c0 => announce_update src clientname caps pid c0
        | none =>
          announce_update src clientname caps pid
            { Client.default with exePath := exe, clientId := freshId }
      let clients' :=
        match expected with
        | some _ =>
          update_first (announce_pred exe)
            (announce_update src clientname caps pid) st.clients
        | none => st.clients ++ [cFinal]   -- push_back of the new record
      let ack :=
        match expected with
        | some _ => "Ack'ed as NSM client (started ourselves)"
        | none => "Ack'ed as NSM client (registered itself from the outside)"
      let guiOuts :=
        if st.guiIsActive then
          [Output.osc Dest.gui "/nsm/gui/client/new"
             [OscArg.s cFinal.clientId, OscArg.s cFinal.name],
           Output.osc Dest.gui "/nsm/gui/client/status"
             [OscArg.s cFinal.clientId, OscArg.s cFinal.status]] ++
          (if cFinal.is_capable_of ":optional-gui:" then
            [Output.osc Dest.gui "/nsm/gui/client/has_optional_gui"
               [OscArg.s cFinal.clientId]]
          else [])
        else []
      { state := { st with clients := clients' }
        out := out0 ++
          [Output.osc Dest.source "/reply"
            [OscArg.s "/nsm/server/announce", OscArg.s ack,
             OscArg.s "Nsmd 66",
             OscArg.s ":server-control:broadcast:optional-gui:"]] ++
          guiOuts ++
          [Output.osc Dest.source "/nsm/client/open"
            [OscArg.s (get_client_project_path st.sessionPath cFinal),
             OscArg.s st.sessionName,
             OscArg.s (cFinal.name ++ "." ++ cFinal.clientId)]] }

/-- The ID under which an accepted announce is registered: the matched
expected record keeps its ID; an outside-started client gets the fresh
generated one. -/
def announce_client_id (clients : List Client) (exe freshId : String) :
    String :=
  match announce_match clients exe with
  | some c0 => c0.clientId
  | none => freshId

/-- If `find? p l` finds `c0`, then replacing the first `p`-match by
`f c0` puts `f c0` into the list. -/
theorem update_first_mem {p : Client → Bool} {f : Client → Client}
    {l : List Client} {c0 : Client} (h : l.find? p = some c0) :
    f c0 ∈ update_first p f l := by
  induction l with
  | nil => simp [List.find?] at h
  | cons c rest ih =>
    by_cases hc : p c
    · rw [List.find?_cons_of_pos _ hc] at h
      cases h
      simp [update_first, hc]
    · rw [List.find?_cons_of_neg _ hc] at h
      simp [update_first, hc]
      exact Or.inr (ih h)

/-- C4: an accepted announce (session open, compatible API major)
matches the first expected record — same executable, not active,
pending command `start` — or registers a fresh one, sends
`/nsm/client/open` with the project path `<session>/<name>.<id>`, the
session name and the full ID `name.id`, and leaves the stored record
active with `pending_command = open`. -/
theorem announce_accepted_opens_client
    (st : DaemonState) (src : Addr) (freshId clientname caps exe : String)
    (major minor pid : Int)
    (hsess : ¬ st.sessionPath = "")
    (hver : major ≤ NSM_API_VERSION_MAJOR) :
    (Output.osc Dest.source "/nsm/client/open"
        [OscArg.s (st.sessionPath ++ "/" ++ clientname ++ "." ++
            announce_client_id st.clients exe freshId),
         OscArg.s st.sessionName,
         OscArg.s (clientname ++ "." ++
            announce_client_id st.clients exe freshId)]
      ∈ (osc_announce st src freshId clientname caps exe major minor pid).out)
    ∧
    ∃ c ∈ (osc_announce st src freshId clientname caps exe
              major minor pid).state.clients,
      c.clientId = announce_client_id st.clients exe freshId ∧
      c.name = clientname ∧ c.active = true ∧
      c.pendingCommand = nsm.command.open := by
  have h1 : (st.sessionPath == "") = false := beq_eq_false_iff_ne.mpr hsess
  have h2 : ¬ (major > NSM_API_VERSION_MAJOR) := not_lt.mpr hver
  unfold osc_announce announce_client_id
  rw [if_neg (by simp [h1]), if_neg h2]
  cases hm : announce_match st.clients exe with
  | none =>
    simp only [hm]
    constructor
    · simp [get_client_project_path, announce_update]
    · refine ⟨announce_update src clientname caps pid
        { Client.default with exePath := exe, clientId := freshId },
        ?_, rfl, rfl, rfl, rfl⟩
      simp
  | some c0 =>
    simp only [hm]
    constructor
    · simp [get_client_project_path, announce_update]
    · refine ⟨announce_update src clientname caps pid c0, ?_,
        rfl, rfl, rfl, rfl⟩
      exact update_first_mem (by simpa [announce_match] using hm)

/-- A daemon state with the session `/data/nsm/Song` open and no
clients registered yet. -/
def announceState : DaemonState where
  clients := []
  sessionRoot := "/data/nsm"
  sessionPath := "/data/nsm/Song"
  sessionName := "Song"
  lockfileDirectory := "/run/nsm"
  pendingOperation := nsm.command.none
  guiIsActive := false
  guiAddr := ⟨"127.0.0.1", "3333"⟩

/-- Witness for C4: the scenario of the spec's first end-to-end
example, evaluated concretely. -/
theorem announce_accepted_opens_client_witness :
    (Output.osc Dest.source "/nsm/client/open"
        [OscArg.s "/data/nsm/Song/seq66.nWXYZ", OscArg.s "Song",
         OscArg.s "seq66.nWXYZ"]
      ∈ (osc_announce announceState ⟨"127.0.0.1", "9999"⟩ "nWXYZ" "seq66"
          ":switch:optional-gui:" "qseq66" 1 2 4242).out)
    ∧
    ∃ c ∈ (osc_announce announceState ⟨"127.0.0.1", "9999"⟩ "nWXYZ" "seq66"
          ":switch:optional-gui:" "qseq66" 1 2 4242).state.clients,
      c.clientId = "nWXYZ" ∧ c.name = "seq66" ∧ c.active = true ∧
      c.pendingCommand = nsm.command.open :=
  announce_accepted_opens_client announceState ⟨"127.0.0.1", "9999"⟩
    "nWXYZ" "seq66" ":switch:optional-gui:" "qseq66" 1 2 4242
    (by decide) (by decide)

/-- A daemon state with no session open. -/
def noSessionState : DaemonState where
  clients := []
  sessionRoot := "/data/nsm"
  sessionPath := ""
  sessionName := ""
  lockfileDirectory := "/run/nsm"
  pendingOperation := nsm.command.none
  guiIsActive := false
  guiAddr := ⟨"127.0.0.1", "3333"⟩

/-- C5 counterexample: an announce whose `api_major` (99) exceeds the
advertised major version, received while no session is open, is
answered with `/error` code `no_session_open` — not `incompatible_api`
— because the session check precedes the version check.  (No record is
activated in either case.) -/
theorem announce_incompatible_no_session :
    (osc_announce noSessionState ⟨"127.0.0.1", "1111"⟩ "nAAAA" "seq66"
        ":switch:" "qseq66" 99 0 4242).out =
      [error_send "/nsm/server/announce" nsm.error.no_session_open
        "No session open for this application to join"] ∧
    (osc_announce noSessionState ⟨"127.0.0.1", "1111"⟩ "nAAAA" "seq66"
        ":switch:" "qseq66" 99 0 4242).state = noSessionState ∧
    nsm.error.no_session_open ≠ nsm.error.incompatible_api ∧
    (99 : Int) > NSM_API_VERSION_MAJOR := by
  exact ⟨rfl, rfl, by decide, by decide⟩

/-- C5 (amended): while a session is open, an announce whose
`api_major` exceeds the daemon's advertised major version is answered
with `/error` code `incompatible_api` and the daemon state — in
particular the client list — is unchanged: no record is activated and
none is added. -/
theorem announce_incompatible_api_rejected
    (st : DaemonState) (src : Addr) (freshId clientname caps exe : String)
    (major minor pid : Int)
    (hsess : ¬ st.sessionPath = "")
    (hver : NSM_API_VERSION_MAJOR < major) :
    (osc_announce st src freshId clientname caps exe
        major minor pid).state = st ∧
    (osc_announce st src freshId clientname caps exe major minor pid).out =
      gui_msg st "Announce from %s" ++
      [error_send "/nsm/server/announce" nsm.error.incompatible_api
        "Server is using an incompatible API version"] := by
  have h1 : (st.sessionPath == "") = false := beq_eq_false_iff_ne.mpr hsess
  unfold osc_announce
  rw [if_neg (by simp [h1]), if_pos hver]
  exact ⟨rfl, rfl⟩

/-- Witness for the amended C5 theorem at a concrete input. -/
theorem announce_incompatible_api_rejected_witness :
    (osc_announce announceState ⟨"127.0.0.1", "1111"⟩ "nAAAA" "seq66"
        ":switch:" "qseq66" 99 0 4242).state = announceState ∧
    (osc_announce announceState ⟨"127.0.0.1", "1111"⟩ "nAAAA" "seq66"
        ":switch:" "qseq66" 99 0 4242).out =
      gui_msg announceState "Announce from %s" ++
      [error_send "/nsm/server/announce" nsm.error.incompatible_api
        "Server is using an incompatible API version"] :=
  announce_incompatible_api_rejected announceState ⟨"127.0.0.1", "1111"⟩
    "nAAAA" "seq66" ":switch:" "qseq66" 99 0 4242 (by decide) (by decide)

/-- The filesystem as the daemon observes it: which paths exist, the
line contents of text files, and the paths on which a write fails
(write-protection). -/
structure Fs where
  files : List String
  contents : List (String × List String)
  writeFails : List String
deriving DecidableEq, Repr

/-- `util::file_exists(path)` (cfg66 helper, modelled as membership in
the filesystem state). -/
def Fs.file_exists (fs : Fs) (path : String) : Bool :=
  fs.files.contains path

/-- `util::file_read_lines` (cfg66 helper): the lines of a text file,
empty when absent. -/
def Fs.read_lines (fs : Fs) (path : String) : List String :=
  (fs.contents.lookup path).getD []

/-- `util::file_write_lines` (cfg66 helper): write a list of lines,
failing exactly on write-protected paths. -/
def Fs.write_lines (fs : Fs) (path : String) (lines : List String) :
    Fs × Bool :=
  if fs.writeFails.contains path then (fs, false)
  else
    ({ fs with
       files := path :: fs.files
       contents := (path, lines) :: fs.contents }, true)

/-- `util::file_delete` (cfg66 helper): remove a path. -/
def Fs.file_delete (fs : Fs) (path : String) : Fs :=
  { fs with
    files := fs.files.erase path
    contents := fs.contents.filter (fun pr => pr.fst != path) }

/-- `save_session_file()`: serialize each client as `name:exe:id` into
`<session>/session.nsm` (`s_path_fmt`); returns 0 on success, 1 on a
failed write. -/
def save_session_file (fs : Fs) (st : DaemonState) : Fs × Int :=
  let sessionfile := st.sessionPath ++ "/session.nsm"
  let textlist := st.clients.map fun c =>
    c.name ++ ":" ++ c.exePath ++ ":" ++ c.clientId
  let (fs', ok) := fs.write_lines sessionfile textlist
  (fs', if ok then 0 else 1)

/-- `command_client_to_save(c)`: an active client is sent
`/nsm/client/save` and marked `pending_command = save`, status `save`;
a non-active dumb client with a live PID is marked status `noop` with
no message to the client; anything else is untouched.  (An active
client always has a source address in practice; a record without one
produces no send, matching a null `c->addr()`.) -/
def command_client_to_save (st : DaemonState) (c : Client) :
    Client × List Output :=
  if c.active then
    let send :=
      match c.addr with
      | some a => [Output.osc (Dest.client a) "/nsm/client/save" []]
      | none => []
    ({ c with pendingCommand := nsm.command.save, status := "save" },
     send ++ gui_send st "/nsm/gui/client/status" c.clientId "save")
  else if c.is_dumb_client && c.pid > 0 then
    ({ c with status := "noop" },
     gui_send st "/nsm/gui/client/status" c.clientId "noop")
  else (c, [])

/-- The loop `for (auto & c : s_client_list) command_client_to_save(c)`
of `command_all_clients_to_save()`. -/
def save_fanout_clients (st : DaemonState) :
    List Client → List Client × List Output
  | [] => ([], [])
  | c :: rest =>
    let pr := command_client_to_save st c
    let prs := save_fanout_clients st rest
    (pr.1 :: prs.1, pr.2 ++ prs.2)

/-- `command_all_clients_to_save()`: with a session open, the manifest
is written first; a failed write aborts the fan-out and is reported to
the GUI only; otherwise every client passes through
`command_client_to_save`.  The trailing `wait_for_replies()` pumps the
event loop and changes no modelled state. -/
def command_all_clients_to_save (fs : Fs) (st : DaemonState) :
    Fs × DaemonState × List Output :=
  if st.sessionPath == "" then (fs, st, [])
  else
    let out0 := gui_msg st "Commanding attached clients to save"
    let fsv := save_session_file fs st
    if fsv.2 == 1 then
      (fsv.1, st, out0 ++ gui_msg st
        "The session file is write-protected; will not forward save command to clients")
    else
      let fan := save_fanout_clients st st.clients
      (fsv.1, { st with clients := fan.1 }, out0 ++ fan.2)

/-- Per-client sends of the fan-out loop end up in the loop's total
output. -/
theorem save_fanout_clients_mem (st : DaemonState) (l : List Client)
    (c : Client) (hc : c ∈ l) (o : Output)
    (ho : o ∈ (command_client_to_save st c).2) :
    o ∈ (save_fanout_clients st l).2 := by
  induction l with
  | nil => cases hc
  | cons d rest ih =>
    simp only [save_fanout_clients, List.mem_append]
    rcases List.mem_cons.mp hc with h | h
    · subst h; exact Or.inl ho
    · exact Or.inr (ih h)

/-- The fan-out loop maps each client through
`command_client_to_save`. -/
theorem save_fanout_clients_fst (st : DaemonState) (l : List Client) :
    (save_fanout_clients st l).1 =
      l.map fun c => (command_client_to_save st c).1 := by
  induction l with
  | nil => rfl
  | cons d rest ih => simp [save_fanout_clients, ih]

/-- C7: the save fan-out with a session open.  If writing the manifest
fails, everything that leaves the daemon is a GUI message and the
client records are untouched; otherwise the client list is mapped
through `command_client_to_save`, under which every active client with
a source address is sent `/nsm/client/save` and gets
`pending_command = save` / status `save`, and a non-active dumb client
with a live PID gets status `noop` while its fan-out step sends nothing
to any client address. -/
theorem save_fanout_policy (fs : Fs) (st : DaemonState)
    (hsess : ¬ st.sessionPath = "") :
    ((st.sessionPath ++ "/session.nsm") ∈ fs.writeFails →
      (command_all_clients_to_save fs st).2.1 = st ∧
      ∀ o ∈ (command_all_clients_to_save fs st).2.2,
        ∃ fmt, o = Output.guiMsg fmt) ∧
    ((st.sessionPath ++ "/session.nsm") ∉ fs.writeFails →
      (command_all_clients_to_save fs st).2.1.clients =
        st.clients.map (fun c => (command_client_to_save st c).1) ∧
      (∀ c ∈ st.clients, c.active = true →
        (command_client_to_save st c).1.pendingCommand = nsm.command.save ∧
        (command_client_to_save st c).1.status = "save" ∧
        ∀ a, c.addr = some a →
          Output.osc (Dest.client a) "/nsm/client/save" [] ∈
            (command_all_clients_to_save fs st).2.2) ∧
      (∀ c ∈ st.clients, c.active = false → c.is_dumb_client = true →
        0 < c.pid →
        (command_client_to_save st c).1.status = "noop" ∧
        ∀ d p as, Output.osc d p as ∈ (command_client_to_save st c).2 →
          d = Dest.gui)) := by
  have h1 : (st.sessionPath == "") = false := beq_eq_false_iff_ne.mpr hsess
  constructor
  · intro hw
    have hfail : command_all_clients_to_save fs st =
        (fs, st, gui_msg st "Commanding attached clients to save" ++
          gui_msg st
            "The session file is write-protected; will not forward save command to clients") := by
      simp [command_all_clients_to_save, save_session_file, Fs.write_lines,
        h1, hw]
    constructor
    · rw [hfail]
    · intro o ho
      rw [hfail] at ho
      simp only [gui_msg, List.mem_append] at ho
      rcases Bool.eq_false_or_eq_true st.guiIsActive with hg | hg <;>
        simp [hg] at ho
      rcases ho with h | h <;> exact ⟨_, h⟩
  · intro hw
    have hmain : command_all_clients_to_save fs st =
        ((save_session_file fs st).1,
         { st with clients := (save_fanout_clients st st.clients).1 },
         gui_msg st "Commanding attached clients to save" ++
           (save_fanout_clients st st.clients).2) := by
      simp [command_all_clients_to_save, save_session_file, Fs.write_lines,
        h1, hw]
    refine ⟨?_, ?_, ?_⟩
    · rw [hmain]
      exact save_fanout_clients_fst st st.clients
    · intro c hc hact
      refine ⟨?_, ?_, ?_⟩
      · simp [command_client_to_save, hact]
      · simp [command_client_to_save, hact]
      · intro a ha
        have ho : Output.osc (Dest.client a) "/nsm/client/save" [] ∈
            (command_client_to_save st c).2 := by
          simp [command_client_to_save, hact, ha]
        rw [hmain]
        simp only [List.mem_append]
        exact Or.inr (save_fanout_clients_mem st st.clients c hc _ ho)
    · intro c hc hact hdumb hpid
      have hsave : command_client_to_save st c =
          ({ c with status := "noop" },
           gui_send st "/nsm/gui/client/status" c.clientId "noop") := by
        simp [command_client_to_save, hact, hdumb, hpid]
      constructor
      · rw [hsave]
      · intro d p as ho
        rw [hsave] at ho
        simp only [gui_send] at ho
        rcases Bool.eq_false_or_eq_true st.guiIsActive with hg | hg <;>
          simp [hg] at ho
        exact ho.1

/-- A concrete save scenario: one announced (active) client. -/
def saveClient : Client :=
  { Client.default with
    name := "seq66"
    exePath := "qseq66"
    clientId := "nABCE"
    capabilities := ":switch:"
    addr := some ⟨"127.0.0.1", "2222"⟩
    pid := 100
    active := true }

/-- An empty, fully writable filesystem. -/
def emptyFs : Fs := { files := [], contents := [], writeFails := [] }

/-- The save scenario's daemon state. -/
def saveState : DaemonState :=
  { announceState with clients := [saveClient] }

/-- Witness for C7: in the concrete scenario the active client is sent
`/nsm/client/save`. -/
theorem save_fanout_policy_witness :
    Output.osc (Dest.client ⟨"127.0.0.1", "2222"⟩) "/nsm/client/save" [] ∈
      (command_all_clients_to_save emptyFs saveState).2.2 :=
  (((save_fanout_policy emptyFs saveState (by decide)).2
      (by decide)).2.1 saveClient (by decide) (by decide)).2.2
    ⟨"127.0.0.1", "2222"⟩ rfl

/-- The prologue of `OSC_HANDLER(save)`: the pending-operation guard.
When an operation is pending the handler answers `/error` with
`operation_pending`; when it proceeds, *no* assignment to
`s_pending_operation` follows the guard — the handler's work
(`command_all_clients_to_save`) begins with the latch still holding
`none`, although the handler's epilogue resets the latch to `none` as
if it had been set. -/
def osc_save_begin (st : DaemonState) : Except Output DaemonState :=
  if st.pendingOperation ≠ nsm.command.none then
    Except.error (error_send "/nsm/server/save" nsm.error.operation_pending
      "An operation pending")
  else Except.ok st

/-- The prologue of `OSC_HANDLER(open)`: the guard, then
`s_pending_operation = nsm::command::open`. -/
def osc_open_begin (st : DaemonState) : Except Output DaemonState :=
  if st.pendingOperation ≠ nsm.command.none then
    Except.error (error_send "/nsm/server/open" nsm.error.operation_pending
      "An operation pending")
  else Except.ok { st with pendingOperation := nsm.command.«open» }

/-- The prologue of `OSC_HANDLER(newsrv)` (the `/nsm/server/new`
handler): the guard, then
`s_pending_operation = nsm::command::new_session`. -/
def osc_newsrv_begin (st : DaemonState) : Except Output DaemonState :=
  if st.pendingOperation ≠ nsm.command.none then
    Except.error (error_send "/nsm/server/new" nsm.error.operation_pending
      "An operation pending")
  else Except.ok { st with pendingOperation := nsm.command.new_session }

/-- The prologue of `OSC_HANDLER(duplicate)`: the guard, then
`s_pending_operation = nsm::command::duplicate`. -/
def osc_duplicate_begin (st : DaemonState) : Except Output DaemonState :=
  if st.pendingOperation ≠ nsm.command.none then
    Except.error (error_send "/nsm/server/duplicate"
      nsm.error.operation_pending "An operation pending")
  else Except.ok { st with pendingOperation := nsm.command.duplicate }

/-- The prologue of `OSC_HANDLER(close)`: the guard, then
`s_pending_operation = nsm::command::close`. -/
def osc_close_begin (st : DaemonState) : Except Output DaemonState :=
  if st.pendingOperation ≠ nsm.command.none then
    Except.error (error_send "/nsm/server/close" nsm.error.operation_pending
      "An operation pending")
  else Except.ok { st with pendingOperation := nsm.command.close }

/-- A daemon state in which an `open` operation is in progress. -/
def busyState : DaemonState :=
  { announceState with pendingOperation := nsm.command.«open» }

/-- C3, evaluated at the failing input.  With a session open and no
operation pending, the `open`, `new`, `duplicate` and `close` handlers
record their operation in the latch the moment they pass the guard —
but the `save` handler proceeds into its work (the save fan-out with
its embedded `wait_for_replies` suspension point) with the latch still
`none`, never recording `save`; while any latch value is set, each of
the handlers answers `/error` `operation_pending`. -/
theorem save_handler_latch_not_recorded :
    osc_open_begin announceState =
      Except.ok { announceState with
        pendingOperation := nsm.command.«open» } ∧
    osc_newsrv_begin announceState =
      Except.ok { announceState with
        pendingOperation := nsm.command.new_session } ∧
    osc_duplicate_begin announceState =
      Except.ok { announceState with
        pendingOperation := nsm.command.duplicate } ∧
    osc_close_begin announceState =
      Except.ok { announceState with pendingOperation := nsm.command.close } ∧
    osc_save_begin announceState = Except.ok announceState ∧
    announceState.pendingOperation = nsm.command.none ∧
    osc_save_begin busyState =
      Except.error (error_send "/nsm/server/save"
        nsm.error.operation_pending "An operation pending") ∧
    osc_open_begin busyState =
      Except.error (error_send "/nsm/server/open"
        nsm.error.operation_pending "An operation pending") := by
  exact ⟨rfl, rfl, rfl, rfl, rfl, rfl, rfl, rfl⟩

/-- Modelled from the cfg66 support library: `util::filename_base`
returns the final path component (used by `set_name` to derive the
simple session name). -/
def util.filename_base (p : String) : String :=
  ⟨(p.data.reverse.takeWhile (fun ch => ch != '/')).reverse⟩

/-- `std::string::substr(pos)`: the suffix from `pos`, or `none` for
the `std::out_of_range` exception when `pos` exceeds the length. -/
def cppSubstr (s : String) (pos : Nat) : Option String :=
  if pos ≤ s.data.length then some ⟨s.data.drop pos⟩ else none

/-- Modelled from the spec (section 4.B): `nsm::get_lock_file_name`
lives in the nsm66 support library; the spec requires only a
deterministic function of the session name and path under the lock
directory.  The concrete shape `<lockdir>/<session_name>` is chosen
here. -/
def nsm.get_lock_file_name (lockdir session_name _session_path : String) :
    String :=
  lockdir ++ "/" ++ session_name

/-- Modelled from the spec (section 4.B): `nsm::write_lock_file` writes
the session path and the daemon's OSC URL into the lock file. -/
def nsm.write_lock_file (fs : Fs) (lockfile sessionpath url : String) : Fs :=
  (fs.write_lines lockfile [sessionpath, url]).1

/-- `delete_lock_file(filename)`. -/
def delete_lock_file (fs : Fs) (filename : String) : Fs :=
  fs.file_delete filename

/-- `session_already_exists(relativepath)`: the session marker
`<root>/<relativepath>/session.nsm` exists (`s_full_path_fmt`). -/
def session_already_exists (fs : Fs) (st : DaemonState)
    (relativepath : String) : Bool :=
  fs.file_exists (st.sessionRoot ++ "/" ++ relativepath ++ "/session.nsm")

/-- One row of the session manifest (`nsm::session_triplets`). -/
structure session_triplet where
  st_client_name : String
  st_client_exe : String
  st_client_id : String
deriving DecidableEq, Repr

/-- Split a character list at every occurrence of `sep`. -/
def splitOnChar (sep : Char) : List Char → List (List Char)
  | [] => [[]]
  | c :: rest =>
    let r := splitOnChar sep rest
    if c == sep then [] :: r
    else
      match r with
      | [] => [[c]]
      | h :: t => (c :: h) :: t

/-- A manifest line `name:exe:id`. -/
def parse_session_line (line : String) : Option session_triplet :=
  match splitOnChar ':' line.data with
  | [n, e, i] => some ⟨⟨n⟩, ⟨e⟩, ⟨i⟩⟩
  | _ => none

/-- Modelled from the spec (section 4.C): `nsm::parse_session_lines`
lives in the nsm66 support library.  Lines are `name:exe:id` with no
escaping, blank lines are skipped, and a parsing failure (missing
colons) yields no triplets so that the load aborts with
`create_failed`. -/
def nsm.parse_session_lines (lines : List String) : List session_triplet :=
  let nonblank := lines.filter (fun l => l != "")
  let parses := nonblank.map parse_session_line
  if parses.all (fun o => o.isSome) then parses.reduceOption else []

/-- `parse_session_file(sessionfile)`: one `Client` record per manifest
row, with `name_with_id` pre-formatted. -/
def parse_session_file (lines : List String) : List Client :=
  (nsm.parse_session_lines lines).map fun t =>
    { Client.mk3 t.st_client_name t.st_client_exe t.st_client_id with
      nameWithId := t.st_client_name ++ "." ++ t.st_client_id }

/-- `command_client_to_quit(c)`: an active client gets
`pending_command = quit`, SIGTERM and status `quit`; a dumb client with
a live PID likewise; a dumb client that is not running is marked
`removed`; any other client is untouched. -/
def command_client_to_quit (st : DaemonState) (c : Client) :
    Client × List Output :=
  if c.active then
    ({ c with pendingCommand := nsm.command.quit, status := "quit" },
     [Output.signal c.pid 15] ++
       gui_send st "/nsm/gui/client/status" c.clientId "quit")
  else if c.is_dumb_client then
    if c.pid > 0 then
      ({ c with status := "quit", pendingCommand := nsm.command.quit },
       gui_send st "/nsm/gui/client/status" c.clientId "quit" ++
         [Output.signal c.pid 15])
    else
      ({ c with status := "removed" },
       gui_send st "/nsm/gui/client/status" c.clientId "removed")
  else (c, [])

/-- `killed_clients_are_alive()`. -/
def killed_clients_are_alive (st : DaemonState) : Bool :=
  st.clients.any fun c =>
    (c.pendingCommand == nsm.command.quit ||
     c.pendingCommand == nsm.command.kill) && c.pid > 0

/-- `wait_for_killed_clients_to_die()`: the 10-second reaping loop
depends on process scheduling, which is outside the model; the model
takes the path in which no child is reaped during the grace window, so
a state with surviving killed clients escalates to SIGKILL for every
record with a live PID. -/
def wait_for_killed_clients_to_die (st : DaemonState) : List Output :=
  if killed_clients_are_alive st then
    st.clients.filterMap fun c =>
      if c.pid > 0 then some (Output.signal c.pid 9) else none
  else []

/-- The client-count map built over the new session's rows
(`client_map`, an ordered map keyed by client name). -/
def clmap_insert : List (String × Int) → String → List (String × Int)
  | [], name => [(name, 1)]
  | (k, v) :: rest, name =>
    if k == name then (k, v + 1) :: rest
    else (k, v) :: clmap_insert rest name

/-- The counting loop over `newclients`. -/
def clmap_of (ncs : List Client) : List (String × Int) :=
  ncs.foldl (fun m nc => clmap_insert m nc.name) []

/-- `clmap[name]--`: decrement a present key (the C++ `operator[]`
keeps the key present even at zero or below). -/
def clmap_dec : List (String × Int) → String → List (String × Int)
  | [], _ => []
  | (k, v) :: rest, name =>
    if k == name then (k, v - 1) :: rest else (k, v) :: clmap_dec rest name

/-- The quit loop of `load_session_file`: a client that is not
`:switch:`-capable or not wanted in the new session is commanded to
quit; a wanted one consumes one count, quitting when the count is
already exhausted (the post-decrement compare `clmap[name]-- <= 0`). -/
def quit_unneeded (st : DaemonState) :
    List (String × Int) → List Client →
      List Client × List (String × Int) × List Output
  | m, [] => ([], m, [])
  | m, c :: rest =>
    let switchable := c.is_capable_of ":switch:"
    let found := (m.lookup c.name).isSome
    if !switchable || !found then
      let pr := command_client_to_quit st c
      let r := quit_unneeded st m rest
      (pr.1 :: r.1, r.2.1, pr.2 ++ r.2.2)
    else
      let v := (m.lookup c.name).getD 0
      let m' := clmap_dec m c.name
      if v ≤ 0 then
        let pr := command_client_to_quit st c
        let r := quit_unneeded st m' rest
        (pr.1 :: r.1, r.2.1, pr.2 ++ r.2.2)
      else
        let r := quit_unneeded st m' rest
        (c :: r.1, r.2.1, r.2.2)

/-- `purge_inactive_clients()`.  The loop body runs
`i = erase(i)` and the loop header then advances `++i`, so the record
immediately after each removed one is skipped unexamined; the model
reproduces that. -/
def purge_inactive_clients (st : DaemonState) :
    List Client → List Client × List Output
  | [] => ([], [])
  | c :: rest =>
    if c.active then
      let pr := purge_inactive_clients st rest
      (c :: pr.1, pr.2)
    else
      let out := gui_send st "/nsm/gui/client/status" c.clientId "removed"
      match rest with
      | [] => ([], out)
      | d :: rest2 =>
        let pr := purge_inactive_clients st rest2
        (d :: pr.1, out ++ pr.2)

/-- The record mutation of `command_client_to_switch(c, new_id)`:
new ID, `pending_command = open`, status `switch`. -/
def switch_update (new_id : String) (c : Client) : Client :=
  { c with
    clientId := new_id
    pendingCommand := nsm.command.«open»
    status := "switch" }

/-- The sends of `command_client_to_switch(c, new_id)` (where `c` is
the record before the update): `/nsm/client/open` with the new project
path, then the GUI status and switch notifications. -/
def switch_outputs (st : DaemonState) (c : Client) (new_id : String) :
    List Output :=
  let c' := { c with clientId := new_id }
  let ppath := get_client_project_path st.sessionPath c'
  let full := c.name ++ "." ++ new_id
  (match c.addr with
   | some a =>
     [Output.osc (Dest.client a) "/nsm/client/open"
       [OscArg.s ppath, OscArg.s st.sessionName, OscArg.s full]]
   | none => []) ++
  gui_send st "/nsm/gui/client/status" new_id "switch" ++
  gui_send st "/nsm/gui/client/switch" c.clientId new_id

/-- The search made by `launch` through `get_client_by_id`: by ID for
an `nXXXX`-shaped argument, by name otherwise. -/
def launch_pred (clientid : String) (c : Client) : Bool :=
  if is_a_client_id clientid then c.clientId == clientid
  else c.name == clientid

/-- The parent-side record mutation of `launch`: `pending_command =
start`, the child's PID, `launch_error = false`, status `launch`. -/
def launch_update (pidv : Int) (c : Client) : Client :=
  { c with
    pendingCommand := nsm.command.start
    pid := pidv
    launchError := false
    status := "launch" }

/-- `launch(executable, clientid)`.  The `fork`/`execvp` child side
(environment export, the sentinel `exit(-1)` and the child-emitted
"Launching" GUI message) is process-level and not modelled; `pidv` is
the PID `fork` returns and `freshId` the generator's output for an
empty `clientid`. -/
def launch (st : DaemonState) (pidv : Int)
    (freshId executable clientid : String) : DaemonState × List Output :=
  match st.clients.find? (launch_pred clientid) with
  | some c =>
    let tgt := launch_update pidv c
    let clients' := update_first (launch_pred clientid)
      (launch_update pidv) st.clients
    ({ st with clients := clients' },
     gui_send st "/nsm/gui/client/new" tgt.clientId tgt.exePath ++
     gui_send st "/nsm/gui/client/status" tgt.clientId tgt.status ++
     gui_send st "/nsm/gui/client/label" tgt.clientId "")
  | none =>
    let base := util.filename_base executable
    let id := if clientid == "" then freshId else clientid
    let c0 := { Client.mk3 base executable id with
      nameWithId := base ++ "." ++ id }
    let tgt := launch_update pidv c0
    ({ st with clients := st.clients ++ [tgt] },
     gui_send st "/nsm/gui/client/new" tgt.clientId tgt.exePath ++
     gui_send st "/nsm/gui/client/status" tgt.clientId tgt.status ++
     gui_send st "/nsm/gui/client/label" tgt.clientId "")

/-- The switch-or-launch loop of `load_session_file` over the new
session's rows.  A pre-existing idle record found by (name, id) — or
by name alone — is switched in place; otherwise the row's executable
is launched, consuming one `(pid, freshId)` pair of the supply.  The
inter-launch `usleep` is timing and not modelled. -/
def load_new_clients :
    List (Int × String) → DaemonState → List Client →
      DaemonState × List Output
  | _, st, [] => (st, [])
  | supply, st, nc :: rest =>
    let byBoth := get_client_by_name_and_id st.clients nc.name nc.clientId
    let cOpt :=
      match byBoth with
      | some c => some c
      | none => get_client_by_name st.clients nc.name
    match cOpt with
    | some c =>
      if c.preExisting && !c.reply_pending then
        let pred : Client → Bool :=
          match byBoth with
          | some _ => fun x => x.clientId == nc.clientId && x.name == nc.name
          | none => fun x => x.name == nc.name
        let clients' := update_first pred (switch_update nc.clientId)
          st.clients
        let st' := { st with clients := clients' }
        let out := switch_outputs st c nc.clientId
        let r := load_new_clients supply st' rest
        (r.1, out ++ r.2)
      else
        let pv := supply.headD (1, "nZZZZ")
        let pr := launch st pv.1 pv.2 nc.exePath nc.clientId
        let r := load_new_clients supply.tail pr.1 rest
        (r.1, pr.2 ++ r.2)
    | none =>
      let pv := supply.headD (1, "nZZZZ")
      let pr := launch st pv.1 pv.2 nc.exePath nc.clientId
      let r := load_new_clients supply.tail pr.1 rest
      (r.1, pr.2 ++ r.2)

/-- `tell_all_clients_session_is_loaded()`. -/
def tell_all_clients_session_is_loaded (st : DaemonState) : List Output :=
  st.clients.filterMap fun c =>
    if c.active then
      match c.addr with
      | some a =>
        some (Output.osc (Dest.client a) "/nsm/client/session_is_loaded" [])
      | none => none
    else none

/-- `clients_have_errors()`. -/
def clients_have_errors (st : DaemonState) : Bool :=
  st.clients.any fun c => c.active && c.has_error

/-- Result of `load_session_file`: the returned error code plus the
filesystem, daemon state and sends. -/
structure LoadResult where
  err : nsm.error
  fs : Fs
  state : DaemonState
  out : List Output
deriving DecidableEq, Repr

/-- `load_session_file(path)`.  `url` is `s_osc_server->url()` (written
into the new lock file), `supply` the `(fork PID, generated ID)` pairs
consumed by launches.  The `wait_for_announce` / `wait_for_replies`
loops pump the event loop and change no modelled state.  Its callers
always pass `path = s_session_root ++ "/" ++ <name>`, so the
`relativepath` substring cannot throw. -/
def load_session_file (fs0 : Fs) (st0 : DaemonState) (path url : String)
    (supply : List (Int × String)) : LoadResult :=
  let havepath := st0.sessionPath != ""
  let havename := st0.sessionName != ""
  let relativepath := (cppSubstr path (st0.sessionRoot.length + 1)).getD ""
  if !(session_already_exists fs0 st0 relativepath) then
    ⟨nsm.error.no_such_file, fs0, st0, []⟩
  else
    let fs1 :=
      if havepath && havename then
        delete_lock_file fs0 (nsm.get_lock_file_name st0.lockfileDirectory
          st0.sessionName st0.sessionPath)
      else fs0
    let st1 := { st0 with sessionName := util.filename_base path }
    let sessionfile := path ++ "/session.nsm"
    let sessionlock := nsm.get_lock_file_name st1.lockfileDirectory
      st1.sessionName path
    if fs1.file_exists sessionlock then
      ⟨nsm.error.session_locked, fs1, st1, []⟩
    else
      let newclients := parse_session_file (fs1.read_lines sessionfile)
      if newclients.isEmpty then
        ⟨nsm.error.create_failed, fs1, st1, []⟩
      else
        let st2 := { st1 with sessionPath := path }
        let clmap := clmap_of newclients
        let q := quit_unneeded st2 clmap st2.clients
        let st3 := { st2 with clients := q.1 }
        let outKill := wait_for_killed_clients_to_die st3
        let p := purge_inactive_clients st3 st3.clients
        let survivors := p.1.map fun c => { c with preExisting := true }
        let st4 := { st3 with clients := survivors }
        let l := load_new_clients supply st4 newclients
        let st5 := l.1
        let outLoaded := tell_all_clients_session_is_loaded st5
        let fs2 := nsm.write_lock_file fs1 sessionlock st5.sessionPath url
        let outGui := gui_send st5 "/nsm/gui/session/name" st5.sessionName
          relativepath
        ⟨nsm.error.ok, fs2, st5,
          q.2.2 ++ outKill ++ p.2 ++ l.2 ++ outLoaded ++ outGui⟩

/-- Result of a handler that also touches the filesystem. -/
structure FsHandlerResult where
  fs : Fs
  state : DaemonState
  out : List Output
deriving DecidableEq, Repr

/-- The message `OSC_HANDLER(open)` pairs with each load error code. -/
def open_err_msg : nsm.error → String
  | .create_failed => "Could not create session file"
  | .session_locked => "Session is locked by another process"
  | .no_such_file => "The named session does not exist"
  | _ => "Unknown error"

/-- `OSC_HANDLER(open)`: guard the latch, record `open` in it, save the
current session's clients (propagating client save errors as
`general`), then load `<root>/<arg>` and convert the load error into
the `/reply` or `/error` answer; finally clear the latch. -/
def osc_open (fs : Fs) (st : DaemonState) (arg url : String)
    (supply : List (Int × String)) : FsHandlerResult :=
  let out0 := gui_msg st "Opening session %s"
  if st.pendingOperation ≠ nsm.command.none then
    ⟨fs, st, out0 ++ [error_send "/nsm/server/open"
      nsm.error.operation_pending "An operation pending"]⟩
  else
    let st1 := { st with pendingOperation := nsm.command.«open» }
    let sv :=
      if st1.sessionPath != "" then command_all_clients_to_save fs st1
      else (fs, st1, [])
    if st1.sessionPath != "" && clients_have_errors sv.2.1 then
      ⟨sv.1, { sv.2.1 with pendingOperation := nsm.command.none },
       out0 ++ sv.2.2 ++ [error_send "/nsm/server/open" nsm.error.general
         "Some clients could not save"]⟩
    else
      let spath := st1.sessionRoot ++ "/" ++ arg
      let r := load_session_file sv.1 sv.2.1 spath url supply
      let final :=
        if r.err = nsm.error.ok then
          [reply_send "/nsm/server/open" "Loaded"]
        else
          [error_send "/nsm/server/open" r.err (open_err_msg r.err)]
      ⟨r.fs, { r.state with pendingOperation := nsm.command.none },
       out0 ++ sv.2.2 ++ r.out ++ final⟩

/-- `substr` after the session root of a well-formed session path is
the session's relative name. -/
theorem cppSubstr_append (root name : String) :
    cppSubstr (root ++ "/" ++ name) (root.length + 1) = some name := by
  have hdata : (root ++ "/" ++ name).data =
      (root.data ++ ['/']) ++ name.data := rfl
  have hlen1 : root.length + 1 = (root.data ++ ['/']).length := by
    rw [List.length_append]; rfl
  unfold cppSubstr
  rw [hdata, if_pos]
  · congr 1
    have : ((root.data ++ ['/']) ++ name.data).drop (root.length + 1) =
        name.data := by
      rw [hlen1, List.drop_left]
    rw [this]
  · rw [hlen1]
    simp

/-- C8: loading a session whose lock file already exists.  The load
returns `session_locked` to its caller without loading (session path,
client list and filesystem untouched), and an `open` request for that
session is answered with an `/error` reply carrying `session_locked`,
after which the daemon is still running with its latch cleared and its
state unchanged but for the recorded simple session name. -/
theorem locked_session_rejected
    (fs : Fs) (st : DaemonState) (name url : String)
    (supply : List (Int × String))
    (hnos : st.sessionPath = "")
    (hlatch : st.pendingOperation = nsm.command.none)
    (hex : fs.file_exists
        (st.sessionRoot ++ "/" ++ name ++ "/session.nsm") = true)
    (hlock : fs.file_exists (nsm.get_lock_file_name st.lockfileDirectory
        (util.filename_base (st.sessionRoot ++ "/" ++ name))
        (st.sessionRoot ++ "/" ++ name)) = true) :
    (load_session_file fs st (st.sessionRoot ++ "/" ++ name) url
        supply).err = nsm.error.session_locked ∧
    (load_session_file fs st (st.sessionRoot ++ "/" ++ name) url
        supply).state.sessionPath = st.sessionPath ∧
    (load_session_file fs st (st.sessionRoot ++ "/" ++ name) url
        supply).state.clients = st.clients ∧
    (load_session_file fs st (st.sessionRoot ++ "/" ++ name) url
        supply).fs = fs ∧
    error_send "/nsm/server/open" nsm.error.session_locked
        "Session is locked by another process" ∈
      (osc_open fs st name url supply).out ∧
    (osc_open fs st name url supply).state.sessionPath = st.sessionPath ∧
    (osc_open fs st name url supply).state.clients = st.clients ∧
    (osc_open fs st name url supply).state.pendingOperation =
      nsm.command.none := by
  have hpath : (st.sessionPath != "") = false := by simp [hnos]
  have hloadP : ∀ p : nsm.command,
      load_session_file fs { st with pendingOperation := p }
        (st.sessionRoot ++ "/" ++ name) url supply =
      ⟨nsm.error.session_locked, fs,
        { st with
          pendingOperation := p
          sessionName :=
            util.filename_base (st.sessionRoot ++ "/" ++ name) },
        []⟩ := by
    intro p
    simp [load_session_file, cppSubstr_append, session_already_exists,
      hex, hpath, hlock, hnos]
  have hst : { st with pendingOperation := st.pendingOperation } = st := rfl
  have hload := hloadP st.pendingOperation
  rw [hst] at hload
  have hopen : osc_open fs st name url supply =
      ⟨fs,
        { st with
          sessionName :=
            util.filename_base (st.sessionRoot ++ "/" ++ name)
          pendingOperation := nsm.command.none },
        gui_msg st "Opening session %s" ++
          [error_send "/nsm/server/open" nsm.error.session_locked
            "Session is locked by another process"]⟩ := by
    simp [osc_open, hlatch, hpath, hloadP, open_err_msg]
  refine ⟨?_, ?_, ?_, ?_, ?_, ?_, ?_, ?_⟩
  · rw [hload]
  · rw [hload]
  · rw [hload]
  · rw [hload]
  · rw [hopen]; simp
  · rw [hopen]
  · rw [hopen]
  · rw [hopen]

/-- A filesystem holding the session `/data/nsm/Song` and a live lock
file for it. -/
def lockedFs : Fs :=
  { files := ["/data/nsm/Song/session.nsm", "/run/nsm/Song"]
    contents := []
    writeFails := [] }

/-- Witness for C8 at a concrete input: opening the locked session
`Song` from an idle daemon. -/
theorem locked_session_rejected_witness :
    (load_session_file lockedFs noSessionState
        ("/data/nsm" ++ "/" ++ "Song") "osc.udp://127.0.0.1:7770/"
        []).err = nsm.error.session_locked ∧
    (load_session_file lockedFs noSessionState
        ("/data/nsm" ++ "/" ++ "Song") "osc.udp://127.0.0.1:7770/"
        []).state.sessionPath = noSessionState.sessionPath ∧
    (load_session_file lockedFs noSessionState
        ("/data/nsm" ++ "/" ++ "Song") "osc.udp://127.0.0.1:7770/"
        []).state.clients = noSessionState.clients ∧
    (load_session_file lockedFs noSessionState
        ("/data/nsm" ++ "/" ++ "Song") "osc.udp://127.0.0.1:7770/"
        []).fs = lockedFs ∧
    error_send "/nsm/server/open" nsm.error.session_locked
        "Session is locked by another process" ∈
      (osc_open lockedFs noSessionState "Song" "osc.udp://127.0.0.1:7770/"
        []).out ∧
    (osc_open lockedFs noSessionState "Song" "osc.udp://127.0.0.1:7770/"
        []).state.sessionPath = noSessionState.sessionPath ∧
    (osc_open lockedFs noSessionState "Song" "osc.udp://127.0.0.1:7770/"
        []).state.clients = noSessionState.clients ∧
    (osc_open lockedFs noSessionState "Song" "osc.udp://127.0.0.1:7770/"
        []).state.pendingOperation = nsm.command.none :=
  locked_session_rejected lockedFs noSessionState "Song"
    "osc.udp://127.0.0.1:7770/" [] rfl rfl (by decide) (by decide)

/-- Remove the first element satisfying `p`
(`s_client_list.remove(c)` removes the unique node the pointer `c`
denotes). -/
def remove_first (p : Client → Bool) : List Client → List Client
  | [] => []
  | c :: rest => if p c then rest else c :: remove_first p rest

/-- The field resets `handle_client_process_death` applies to a record
whose process died without a pending `quit`: launch-error label or a
cleared label, status `stopped`, then `pending_command = none`,
`active = false`, `pid = 0`. -/
def death_reset (c : Client) : Client :=
  { c with
    label := if c.launchError then "Launch error!" else ""
    status := "stopped"
    pendingCommand := nsm.command.none
    active := false
    pid := 0 }

/-- `handle_client_process_death(pid)`: the first record with the
reaped PID is removed (status `removed`) when its pending command was
`quit`, and otherwise reset through `death_reset`.  (In the `quit`
branch the source performs the trailing field assignments through the
already-freed pointer; they have no effect on the stored list.) -/
def handle_client_process_death (st : DaemonState) (pid : Int) :
    DaemonState × List Output :=
  match st.clients.find? (fun x => x.pid == pid) with
  | none => (st, [])
  | some c =>
    let msg :=
      if c.pendingCommand == nsm.command.kill ||
         c.pendingCommand == nsm.command.quit then
        gui_msg st "Client %s terminated by server"
      else
        gui_msg st "Client %s terminated itself"
    if c.pendingCommand == nsm.command.quit then
      ({ st with
         clients := remove_first (fun x => x.pid == pid) st.clients },
       msg ++ gui_send st "/nsm/gui/client/status" c.clientId "removed")
    else
      let c' := death_reset c
      ({ st with
         clients := update_first (fun x => x.pid == pid) death_reset
           st.clients },
       msg ++ gui_send st "/nsm/gui/client/label" c'.clientId c'.label ++
         gui_send st "/nsm/gui/client/status" c'.clientId c'.status)

/-- Removing a found element shortens the list by exactly one. -/
theorem remove_first_length {p : Client → Bool} {l : List Client}
    {c : Client} (h : l.find? p = some c) :
    (remove_first p l).length + 1 = l.length := by
  induction l with
  | nil => simp [List.find?] at h
  | cons d rest ih =>
    by_cases hd : p d
    · simp [remove_first, hd]
    · rw [List.find?_cons_of_neg _ hd] at h
      simp [remove_first, hd, ih h]

/-- Updating the first found element preserves length. -/
theorem update_first_length (p : Client → Bool) (f : Client → Client)
    (l : List Client) :
    (update_first p f l).length = l.length := by
  induction l with
  | nil => rfl
  | cons d rest ih =>
    by_cases hd : p d <;> simp [update_first, hd, ih]

/-- C10: after death handling for a reaped PID that matches a record,
that record has either been removed from the client list (pending
command was `quit`) or survives with `pending_command = none`,
`active = false`, `pid = 0` and status `stopped` — never with a stale
PID, pending command or active flag. -/
theorem client_death_clears_record
    (st : DaemonState) (pid : Int) (c : Client)
    (hfind : st.clients.find? (fun x => x.pid == pid) = some c) :
    (c.pendingCommand = nsm.command.quit ∧
      (handle_client_process_death st pid).1.clients.length + 1 =
        st.clients.length) ∨
    (c.pendingCommand ≠ nsm.command.quit ∧
      (handle_client_process_death st pid).1.clients.length =
        st.clients.length ∧
      ∃ c' ∈ (handle_client_process_death st pid).1.clients,
        c'.clientId = c.clientId ∧
        c'.pendingCommand = nsm.command.none ∧ c'.active = false ∧
        c'.pid = 0 ∧ c'.status = "stopped") := by
  by_cases hq : c.pendingCommand = nsm.command.quit
  · left
    refine ⟨hq, ?_⟩
    have : handle_client_process_death st pid =
        ({ st with
           clients := remove_first (fun x => x.pid == pid) st.clients },
         (if c.pendingCommand == nsm.command.kill ||
             c.pendingCommand == nsm.command.quit then
            gui_msg st "Client %s terminated by server"
          else gui_msg st "Client %s terminated itself") ++
           gui_send st "/nsm/gui/client/status" c.clientId "removed") := by
      simp [handle_client_process_death, hfind, hq]
    rw [this]
    exact remove_first_length hfind
  · right
    have hq' : (c.pendingCommand == nsm.command.quit) = false := by
      simp [hq]
    have hmain : handle_client_process_death st pid =
        ({ st with
           clients := update_first (fun x => x.pid == pid) death_reset
             st.clients },
         (if c.pendingCommand == nsm.command.kill ||
             c.pendingCommand == nsm.command.quit then
            gui_msg st "Client %s terminated by server"
          else gui_msg st "Client %s terminated itself") ++
           gui_send st "/nsm/gui/client/label" (death_reset c).clientId
             (death_reset c).label ++
           gui_send st "/nsm/gui/client/status" (death_reset c).clientId
             (death_reset c).status) := by
      simp [handle_client_process_death, hfind, hq']
    refine ⟨hq, ?_, ?_⟩
    · rw [hmain]
      exact update_first_length _ _ _
    · rw [hmain]
      exact ⟨death_reset c, update_first_mem hfind, rfl, rfl, rfl, rfl, rfl⟩

/-- A state with one running, announced client (PID 42). -/
def deathState : DaemonState :=
  { announceState with
    clients := [{ Client.default with
      name := "seq66"
      clientId := "nQRST"
      addr := some ⟨"127.0.0.1", "5555"⟩
      pid := 42
      active := true
      status := "ready" }] }

/-- Witness for C10: the client with PID 42 dies with no pending
`quit`; its record survives fully reset. -/
theorem client_death_clears_record_witness :
    (Client.default.pendingCommand = nsm.command.quit ∧
      (handle_client_process_death deathState 42).1.clients.length + 1 =
        deathState.clients.length) ∨
    (Client.default.pendingCommand ≠ nsm.command.quit ∧
      (handle_client_process_death deathState 42).1.clients.length =
        deathState.clients.length ∧
      ∃ c' ∈ (handle_client_process_death deathState 42).1.clients,
        c'.clientId = "nQRST" ∧
        c'.pendingCommand = nsm.command.none ∧ c'.active = false ∧
        c'.pid = 0 ∧ c'.status = "stopped") :=
  client_death_clears_record deathState 42
    { Client.default with
      name := "seq66"
      clientId := "nQRST"
      addr := some ⟨"127.0.0.1", "5555"⟩
      pid := 42
      active := true
      status := "ready" } rfl

/-- `client_port` of `jackpatch66.hpp`: client and port name. -/
structure client_port where
  client : String
  port : String
deriving DecidableEq, Repr

/-- `patch_record` of `jackpatch66.hpp`: one saved directed
connection and its live flag. -/
structure patch_record where
  pr_src : client_port
  pr_dst : client_port
  pr_active : Bool
deriving DecidableEq, Repr

/-- `make_client_port_name(cp)`: `client:port`. -/
def make_client_port_name (cp : client_port) : String :=
  cp.client ++ ":" ++ cp.port

/-- `find_known_port(portname)`: the stored name on a hit, the empty
string otherwise. -/
def find_known_port (known : List String) (portname : String) : String :=
  match known.find? (fun p => p == portname) with
  | some p => p
  | none => ""

/-- `EEXIST` on Linux. -/
def EEXIST : Int := 17

/-- The guard under which `connect_path` reaches `jack_connect`: the
patch is not already active and both endpoint names are known. -/
def connect_attempted (known : List String) (pr : patch_record) : Bool :=
  !pr.pr_active &&
    !(find_known_port known (make_client_port_name pr.pr_src) == "") &&
    !(find_known_port known (make_client_port_name pr.pr_dst) == "")

/-- `connect_path(pr)` of `jackpatch66.cpp`.  `rc` gives
`jack_connect`'s return code for a (source, destination) pair — the
JACK graph is the environment.  An already-active patch is skipped; a
patch with an unknown endpoint is skipped; `0` or `EEXIST` marks the
patch active; any other code leaves it inactive. -/
def connect_path (known : List String) (rc : String → String → Int)
    (pr : patch_record) : patch_record :=
  if pr.pr_active then pr
  else
    let srcport := make_client_port_name pr.pr_src
    let dstport := make_client_port_name pr.pr_dst
    let srcmatch := !(find_known_port known srcport == "")
    let dstmatch := !(find_known_port known dstport == "")
    if !srcmatch || !dstmatch then pr
    else
      let r := rc srcport dstport
      if r == 0 || r == EEXIST then { pr with pr_active := true }
      else { pr with pr_active := false }

/-- Modelled from the spec (section 4.J): `nsm::extract_client_port`
lives in the nsm66 support library; the full port name is split at its
*last* colon because client names may themselves contain colons. -/
def extract_client_port (fullport : String) : Option (String × String) :=
  if fullport.data.contains ':' then
    some
      (⟨((fullport.data.reverse.dropWhile
            (fun ch => ch != ':')).reverse).dropLast⟩,
       ⟨(fullport.data.reverse.takeWhile (fun ch => ch != ':')).reverse⟩)
  else none

/-- `do_for_matching_patches(fullportname, func)`: apply `func` to
every patch one of whose endpoints equals the split name. -/
def do_for_matching_patches (fullportname : String)
    (func : patch_record → patch_record)
    (patches : List patch_record) : List patch_record :=
  match extract_client_port fullportname with
  | none => patches
  | some (client, port) =>
    patches.map fun pr =>
      if (client == pr.pr_src.client && port == pr.pr_src.port) ||
         (client == pr.pr_dst.client && port == pr.pr_dst.port) then
        func pr
      else pr

/-- `inactivate_path(pr)`. -/
def inactivate_path (pr : patch_record) : patch_record :=
  { pr with pr_active := false }

/-- `activate_patch(portname)`: attempt reconnection of every saved
patch with a matching endpoint. -/
def activate_patch (known : List String) (rc : String → String → Int)
    (portname : String) (patches : List patch_record) :
    List patch_record :=
  do_for_matching_patches portname (connect_path known rc) patches

/-- `handle_new_port(portname)`: record the port as known, then try to
activate matching patches (the new port is already known during the
attempts). -/
def handle_new_port (known : List String) (patches : List patch_record)
    (rc : String → String → Int) (portname : String) :
    List String × List patch_record :=
  let known' := known ++ [portname]
  (known', activate_patch known' rc portname patches)

/-- A full `client:port` name is never the empty string. -/
theorem make_client_port_name_ne_empty (cp : client_port) :
    make_client_port_name cp ≠ "" := by
  intro h
  have hdata : (make_client_port_name cp).data =
      cp.client.data ++ [':'] ++ cp.port.data := rfl
  have hempty : (make_client_port_name cp).data = [] := by rw [h]
  rw [hdata] at hempty
  simp at hempty

/-- For a nonempty name, `find_known_port` answers nonempty exactly on
a hit. -/
theorem find_known_port_hit_iff (known : List String) (s : String)
    (hs : s ≠ "") :
    (!(find_known_port known s == "")) = true ↔ s ∈ known := by
  cases hf : known.find? (fun p => p == s) with
  | none =>
    have hn : s ∉ known := by
      intro hmem
      have := List.find?_eq_none.mp hf s hmem
      simp at this
    simp [find_known_port, hf, hn]
  | some p =>
    have hp : p = s := by simpa using List.find?_some hf
    have hm : s ∈ known := hp ▸ List.mem_of_find?_eq_some hf
    simp [find_known_port, hf, hp, hm, hs]

/-- `connect_path` never changes a patch's endpoints. -/
theorem connect_path_preserves_endpoints (known : List String)
    (rc : String → String → Int) (q : patch_record) :
    (connect_path known rc q).pr_src = q.pr_src ∧
    (connect_path known rc q).pr_dst = q.pr_dst := by
  simp only [connect_path]
  split
  · exact ⟨rfl, rfl⟩
  · split
    · exact ⟨rfl, rfl⟩
    · split <;> exact ⟨rfl, rfl⟩

/-- `do_for_matching_patches` under `connect_path` keeps the patch list
intact: same length, same endpoints per position. -/
theorem do_for_matching_endpoints (port : String) (known : List String)
    (rc : String → String → Int) (patches : List patch_record) :
    (do_for_matching_patches port (connect_path known rc)
        patches).length = patches.length ∧
    (do_for_matching_patches port (connect_path known rc) patches).map
        patch_record.pr_src = patches.map patch_record.pr_src ∧
    (do_for_matching_patches port (connect_path known rc) patches).map
        patch_record.pr_dst = patches.map patch_record.pr_dst := by
  unfold do_for_matching_patches
  cases extract_client_port port with
  | none => exact ⟨rfl, rfl, rfl⟩
  | some cp =>
    refine ⟨by simp, ?_, ?_⟩
    · induction patches with
      | nil => rfl
      | cons x rest ih =>
        simp only [List.map_cons, ih]
        congr 1
        split
        · exact (connect_path_preserves_endpoints known rc x).1
        · rfl
    · induction patches with
      | nil => rfl
      | cons x rest ih =>
        simp only [List.map_cons, ih]
        congr 1
        split
        · exact (connect_path_preserves_endpoints known rc x).2
        · rfl

/-- C9: the reconnect policy.  A connect is attempted exactly when the
patch is inactive and both endpoint names are in the known-port set; a
return code of 0 or `EEXIST` marks the patch active, any other code
leaves it inactive; a skipped patch is returned unchanged, the
endpoints are untouched in every case, and `handle_new_port` keeps
every saved patch in the list (same length, same endpoints per
position). -/
theorem connect_path_policy (known : List String)
    (rc : String → String → Int) (pr : patch_record) :
    (connect_attempted known pr = true ↔
      (pr.pr_active = false ∧
       make_client_port_name pr.pr_src ∈ known ∧
       make_client_port_name pr.pr_dst ∈ known)) ∧
    (connect_attempted known pr = true →
      (rc (make_client_port_name pr.pr_src)
          (make_client_port_name pr.pr_dst) = 0 ∨
       rc (make_client_port_name pr.pr_src)
          (make_client_port_name pr.pr_dst) = EEXIST) →
      (connect_path known rc pr).pr_active = true) ∧
    (connect_attempted known pr = true →
      rc (make_client_port_name pr.pr_src)
          (make_client_port_name pr.pr_dst) ≠ 0 →
      rc (make_client_port_name pr.pr_src)
          (make_client_port_name pr.pr_dst) ≠ EEXIST →
      (connect_path known rc pr).pr_active = false) ∧
    (connect_attempted known pr = false → connect_path known rc pr = pr) ∧
    ((connect_path known rc pr).pr_src = pr.pr_src ∧
     (connect_path known rc pr).pr_dst = pr.pr_dst) ∧
    (∀ (patches : List patch_record) (portname : String),
      (handle_new_port known patches rc portname).2.length =
        patches.length ∧
      (handle_new_port known patches rc portname).2.map
          patch_record.pr_src = patches.map patch_record.pr_src ∧
      (handle_new_port known patches rc portname).2.map
          patch_record.pr_dst = patches.map patch_record.pr_dst) := by
  have hsrcne := make_client_port_name_ne_empty pr.pr_src
  have hdstne := make_client_port_name_ne_empty pr.pr_dst
  have hsrcmem := find_known_port_hit_iff known
    (make_client_port_name pr.pr_src) hsrcne
  have hdstmem := find_known_port_hit_iff known
    (make_client_port_name pr.pr_dst) hdstne
  have hnot : ∀ b : Bool, ((!b) = true) ↔ (b = false) := by
    intro b; cases b <;> simp
  have hiff : connect_attempted known pr = true ↔
      (pr.pr_active = false ∧
       make_client_port_name pr.pr_src ∈ known ∧
       make_client_port_name pr.pr_dst ∈ known) := by
    unfold connect_attempted
    rw [Bool.and_eq_true, Bool.and_eq_true, hsrcmem, hdstmem, hnot]
    tauto
  have hg : connect_attempted known pr = true →
      pr.pr_active = false ∧
      (find_known_port known (make_client_port_name pr.pr_src) == "") =
        false ∧
      (find_known_port known (make_client_port_name pr.pr_dst) == "") =
        false := by
    intro h
    obtain ⟨ha, hm1, hm2⟩ := hiff.mp h
    refine ⟨ha, ?_, ?_⟩
    · have h1 := hsrcmem.mpr hm1
      cases hb : (find_known_port known
          (make_client_port_name pr.pr_src) == "")
      · rfl
      · rw [hb] at h1; simp at h1
    · have h2 := hdstmem.mpr hm2
      cases hb : (find_known_port known
          (make_client_port_name pr.pr_dst) == "")
      · rfl
      · rw [hb] at h2; simp at h2
  refine ⟨hiff, ?_, ?_, ?_,
    connect_path_preserves_endpoints known rc pr, ?_⟩
  · intro hatt hrc
    obtain ⟨ha, e1, e2⟩ := hg hatt
    rcases hrc with h0 | h0 <;> simp [connect_path, ha, e1, e2, h0]
  · intro hatt h0 he
    obtain ⟨ha, e1, e2⟩ := hg hatt
    simp [connect_path, ha, e1, e2, h0, he]
  · intro hatt
    have hatt' : ¬ (connect_attempted known pr = true) := by
      simp [hatt]
    simp only [connect_path]
    split
    · rfl
    · split
      · rfl
      · exfalso
        rename_i hactive hmatch
        have ha : pr.pr_active = false := by
          cases hb : pr.pr_active
          · rfl
          · exact absurd hb hactive
        have hsm : (find_known_port known
            (make_client_port_name pr.pr_src) == "") = false := by
          cases hb : (find_known_port known
              (make_client_port_name pr.pr_src) == "")
          · rfl
          · exact absurd (by simp [hb]) hmatch
        have hdm : (find_known_port known
            (make_client_port_name pr.pr_dst) == "") = false := by
          cases hb : (find_known_port known
              (make_client_port_name pr.pr_dst) == "")
          · rfl
          · exact absurd (by simp [hb]) hmatch
        exact hatt' (hiff.mpr ⟨ha, hsrcmem.mp (by simp [hsm]),
          hdstmem.mp (by simp [hdm])⟩)
  · intro patches portname
    have hd := do_for_matching_endpoints portname (known ++ [portname])
      rc patches
    exact ⟨hd.1, hd.2.1, hd.2.2⟩

/-- The known-port set of the spec's patch-restore scenario. -/
def patchKnown : List String := ["seq66:midi_out", "fluidsynth:midi_in"]

/-- The saved patch `seq66:midi_out |> fluidsynth:midi_in`, not yet
active. -/
def patchPr : patch_record :=
  { pr_src := ⟨"seq66", "midi_out"⟩
    pr_dst := ⟨"fluidsynth", "midi_in"⟩
    pr_active := false }

/-- Witness for C9: with both endpoints known and a connect returning
0, the patch becomes active. -/
theorem connect_path_policy_witness :
    (connect_path patchKnown (fun _ _ => 0) patchPr).pr_active = true :=
  (connect_path_policy patchKnown (fun _ _ => 0) patchPr).2.1 (by decide)
    (Or.inl rfl)

/-- A directory tree under the session root. -/
inductive FsTree
  | file (name : String)
  | dir (name : String) (children : List FsTree)

/-- The name of a tree node. -/
def FsTree.nodeName : FsTree → String
  | .file n => n
  | .dir n _ => n

/-- Is the node a regular file (`FTS_F`)? -/
def FsTree.isFile : FsTree → Bool
  | .file _ => true
  | .dir _ _ => false

/-- The fts walk of `OSC_HANDLER(list)`, counting the emitted
`/reply /nsm/server/list` messages (which all carry the same payload,
see `osc_list`).  The comparator
`fts_comparer_to_process_files_before_dirs` guarantees that the files
of a directory are visited before its subdirectories, so the
`session.nsm` marker is found before any sibling subdirectory is
entered; a marked directory yields exactly one reply and `FTS_SKIP`
prunes all its descendants.  `fuel` bounds the recursion depth (the
walk of a finite tree never exhausts a fuel of its depth). -/
def list_sessions (fuel : Nat) (t : FsTree) : Nat :=
  match fuel with
  | 0 => 0
  | fuel + 1 =>
    match t with
    | .file _ => 0
    | .dir _ children =>
      if (children.filter FsTree.isFile).any
          (fun u => util.strcompare "session.nsm" u.nodeName) then 1
      else
        ((children.filter (fun u => !u.isFile)).map
          (list_sessions fuel)).sum

/-- `OSC_HANDLER(list)` over the session root `tree`: the emitted
replies, in the daemon's encoding.  For every found session the code
computes `rest = path.substr(s_session_root.length() + 1)` — where
`path` is the handler's OSC path `/nsm/server/list`, not the
filesystem path of the session (the local `s = ent->fts_path` is
assigned and never used) — and sends `rest`; a root longer than the
OSC path makes `substr` throw `std::out_of_range` (`none`).  The
terminating reply carries the empty string. -/
def osc_list (sessionRoot : String) (tree : FsTree) (fuel : Nat) :
    Option (List String) :=
  let n := list_sessions fuel tree
  if n == 0 then some [""]
  else
    match cppSubstr "/nsm/server/list" (sessionRoot.length + 1) with
    | none => none
    | some rest => some (List.replicate n rest ++ [""])

/-- The session root of the spec's listing scenario: `A/session.nsm`,
`B/C/session.nsm`, `B/D/session.nsm`. -/
def listTree : FsTree :=
  .dir "nsm"
    [.dir "A" [.file "session.nsm"],
     .dir "B"
       [.dir "C" [.file "session.nsm"],
        .dir "D" [.file "session.nsm"]]]

/-- C2, evaluated at the failing input.  Three sessions are found (one
per `session.nsm`, none for `B/` itself), but each reply carries
`"r/list"` — the substring of the OSC path `/nsm/server/list` after
position 10 = `strlen("/data/nsm") + 1` — instead of the session's
relative path, because the handler takes the substring of `path`
rather than of the fts entry.  With a realistic session root longer
than the 16-character OSC path, `substr` throws and the daemon
aborts. -/
theorem list_reply_payload_wrong :
    osc_list "/data/nsm" listTree 10 =
      some ["r/list", "r/list", "r/list", ""] ∧
    osc_list "/data/nsm" listTree 10 ≠ some ["A", "B/C", "B/D", ""] ∧
    list_sessions 10 listTree = 3 ∧
    osc_list "/home/user/.local/share/nsm" listTree 10 = none := by
  exact ⟨rfl, by decide, rfl, rfl⟩
